import Mathlib

/-!
Shallow embedding of the stream-orchestration core of tap-instagram
(src/tap_instagram/client.py and src/tap_instagram/streams.py).

Timestamps (pendulum DateTime values in UTC) are embedded as `Int` epoch
seconds: comparison, `min`/`max` and second-granularity arithmetic on UTC
pendulum datetimes coincide with the corresponding `Int` operations.
-/

/-- A pendulum Duration, stored as its total length in seconds
(pendulum durations are constructed from calendar components; the code
only ever reads the `seconds` property of one). -/
structure Duration where
  totalSeconds : Int
deriving Repr, DecidableEq

/-- The `seconds` property of a pendulum `Duration`: total number of whole
seconds of the duration.  (Pendulum departs from `datetime.timedelta` here:
`timedelta.seconds` is only the within-day remainder, while pendulum's
`Duration.seconds` is the full total, e.g. `pendulum.duration(days=2).seconds
== 172800`.  The code relies on the pendulum semantics.) -/
def Duration.seconds (d : Duration) : Int := d.totalSeconds

/-- pendulum.duration(days=n). -/
def durationDays (n : Int) : Duration := ⟨n * 86400⟩

/-- UserInsightsStream._fetch_time_based_pagination_range (streams.py lines
780-811).  `cursor` embeds `self.get_starting_timestamp(context)` and
`signpost` embeds `self.get_replication_key_signpost(context)`; either may be
Python `None`, in which case the `min`/`max` comparison in the `try` block
raises `TypeError` and the `except TypeError` branch runs instead (it
reassigns `since` to `min_since` even when the first line had succeeded). -/
def fetchTimeBasedPaginationRange (cursor signpost : Option Int)
    (min_since max_until : Int) (max_time_window : Duration) : Int × Int :=
  match cursor, signpost with
  | some c, some sp =>
    -- since = min(max(self.get_starting_timestamp(context), min_since), max_until)
    let since := min (max c min_since) max_until
    -- window_end = min(signpost, since.add(seconds=max_time_window.seconds))
    let window_end := min sp (since + max_time_window.seconds)
    -- until = min(window_end, max_until)
    (since, min window_end max_until)
  | _, _ =>
    -- except TypeError: since = min_since; window_end = since.add(seconds=...)
    let since := min_since
    let window_end := since + max_time_window.seconds
    (since, min window_end max_until)

/-! ### urllib.parse modelling (client.py line 65)

`urllib.parse.parse_qs(urllib.parse.urlparse(next_page_token).query)`.
Strings are processed character-by-character (a Lean `String` wraps its
`List Char`), so every function here evaluates by kernel reduction.  All
separators involved (`#`, `?`, `&`, `=`) are single characters, so
single-character splitting reproduces `str.split`. -/

/-- Split a character list at every occurrence of `c` (semantics of Python
`str.split(c)` for a one-character separator). -/
def splitOnChar (c : Char) : List Char → List (List Char)
  | [] => [[]]
  | x :: xs =>
    match splitOnChar c xs with
    | [] => if x = c then [[], []] else [[x]]
    | h :: t => if x = c then [] :: h :: t else (x :: h) :: t

/-- Join string pieces with a separator (Python `sep.join(pieces)`). -/
def joinWith (sep : String) : List String → String
  | [] => ""
  | [x] => x
  | x :: xs => x ++ sep ++ joinWith sep xs

/-- One hexadecimal digit, as used by percent-decoding. -/
def hexDigitVal (c : Char) : Option Nat :=
  if '0' ≤ c ∧ c ≤ '9' then some (c.toNat - '0'.toNat)
  else if 'a' ≤ c ∧ c ≤ 'f' then some (c.toNat - 'a'.toNat + 10)
  else if 'A' ≤ c ∧ c ≤ 'F' then some (c.toNat - 'A'.toNat + 10)
  else none

/-- Percent-decoding of `%HH` escapes (`urllib.parse.unquote` restricted to
single-byte escapes; invalid escapes are passed through unchanged, as in
urllib). -/
def percentDecode : List Char → List Char
  | [] => []
  | '%' :: a :: b :: rest =>
    match hexDigitVal a, hexDigitVal b with
    | some ha, some hb => Char.ofNat (ha * 16 + hb) :: percentDecode rest
    | _, _ => '%' :: percentDecode (a :: b :: rest)
  | c :: rest => c :: percentDecode rest

/-- `unquote(s.replace('+', ' '))`, the decoding parse_qsl applies to each
name and value. -/
def unquotePlus (s : String) : String :=
  ⟨percentDecode (s.toList.map (fun c => if c = '+' then ' ' else c))⟩

/-- The `query` component of `urllib.parse.urlparse(url)`: urlsplit first
strips the fragment (everything from the first `#`), then takes everything
after the first `?` of what remains. -/
def urlparseQuery (url : String) : String :=
  let beforeFragment := (splitOnChar '#' url.toList).headD []
  match splitOnChar '?' beforeFragment with
  | [] => ""
  | [_] => ""
  | _ :: rest => joinWith "?" (rest.map List.asString)

/-- `urllib.parse.parse_qsl(qs)` with default arguments: split on `&`, drop
empty chunks, split each chunk at its first `=` (chunks without `=` and
pairs with a blank value are dropped, since `keep_blank_values=False`),
plus-replace and percent-decode both sides. -/
def parseQsl (qs : String) : List (String × String) :=
  (splitOnChar '&' qs.toList).filterMap (fun chunk =>
    if chunk = [] then none
    else
      match splitOnChar '=' chunk with
      | [] => none
      | [_] => none
      | n :: rest =>
        let v := joinWith "=" (rest.map List.asString)
        if v = "" then none
        else some (unquotePlus ⟨n⟩, unquotePlus v))

/-- Append a value under a key in a `parse_qs`-style multidict, preserving
Python dict insertion order. -/
def multidictAppend (d : List (String × List String)) (n : String) (v : String) :
    List (String × List String) :=
  if d.any (fun kv => kv.1 = n) then
    d.map (fun kv => if kv.1 = n then (kv.1, kv.2 ++ [v]) else kv)
  else d ++ [(n, [v])]

/-- `urllib.parse.parse_qs(qs)`: group the `parse_qsl` pairs into a dict of
value lists. -/
def parseQs (qs : String) : List (String × List String) :=
  (parseQsl qs).foldl (fun d nv => multidictAppend d nv.1 nv.2) []

/-! ### URL parameter dictionaries -/

/-- A value stored in the `params` dict handed to the HTTP layer: a string,
a pendulum datetime, a list of strings (from `parse_qs`), or Python `None`. -/
inductive PVal where
  | str (v : String)
  | time (v : Int)
  | strs (v : List String)
  | pyNone
deriving Repr, DecidableEq

/-- Python dict key update: overwrite in place if the key exists, else append
(insertion order). -/
def dictSet (d : List (String × PVal)) (k : String) (v : PVal) :
    List (String × PVal) :=
  if d.any (fun kv => kv.1 = k) then
    d.map (fun kv => if kv.1 = k then (kv.1, v) else kv)
  else d ++ [(k, v)]

/-- Python dict lookup (`d[k]` / `d.get(k)`); keys are unique by
construction, so first match suffices. -/
def dictFind (d : List (String × PVal)) (k : String) : Option PVal :=
  match d with
  | [] => none
  | kv :: rest => if kv.1 = k then some kv.2 else dictFind rest k

/-- Python truthiness of an optional string (`if next_page_token:`):
`None` and the empty string are falsy, every other string is truthy. -/
def pyTruthy : Option String → Bool
  | none => false
  | some s => !(s == "")

/-- The parameter dict built from a next-page-token URL:
`urllib.parse.parse_qs(urllib.parse.urlparse(next_page_token).query)`. -/
def tokenParams (tok : String) : List (String × PVal) :=
  (parseQs (urlparseQuery tok)).map (fun kv => (kv.1, PVal.strs kv.2))

/-- InstagramStream.get_url_params (client.py lines 59-70).  With a truthy
`next_page_token` it returns only the token URL's parsed query parameters;
otherwise it builds the base dict from the config access token and, when the
stream has a truthy replication key, the sort parameters. -/
def instagramGetUrlParams (access_token : String) (replication_key : Option String)
    (next_page_token : Option String) : List (String × PVal) :=
  if pyTruthy next_page_token then
    tokenParams (next_page_token.getD "")
  else
    let params := [("access_token", PVal.str access_token)]
    if pyTruthy replication_key then
      params ++ [("sort", PVal.str "asc"),
                 ("order_by", PVal.str (replication_key.getD ""))]
    else params

/-- UserInsightsStream.get_url_params (streams.py lines 813-832).  The class
sets `replication_key = "end_time"`; with a truthy token the dict produced by
the base class (the parsed token query) is returned as is, otherwise metric,
period and (when the stream paginates) the planned since/until window are
added. -/
def userInsightsGetUrlParams (access_token : String) (metrics : List String)
    (time_period : String) (has_pagination : Bool) (cursor signpost : Option Int)
    (min_start_date max_end_date : Int) (max_time_window : Duration)
    (next_page_token : Option String) : List (String × PVal) :=
  let params := instagramGetUrlParams access_token (some "end_time") next_page_token
  if pyTruthy next_page_token then params
  else
    let params := dictSet params "metric" (PVal.str (joinWith "," metrics))
    let params := dictSet params "period" (PVal.str time_period)
    if has_pagination then
      let su := fetchTimeBasedPaginationRange cursor signpost
        min_start_date max_end_date max_time_window
      dictSet (dictSet params "since" (PVal.time su.1)) "until" (PVal.time su.2)
    else params

/-! ### MediaStream (streams.py lines 59-221) -/

/-- The `fields` attribute of MediaStream. -/
def mediaFields : List String :=
  ["id", "ig_id", "caption", "comments_count", "is_comment_enabled",
   "like_count", "media_product_type", "media_type", "media_url", "owner",
   "permalink", "shortcode", "thumbnail_url", "timestamp", "username",
   "video_title"]

/-- MediaStream.make_since_param (streams.py lines 189-196): with a truthy
starting timestamp, subtract `media_insights_lookback_days` days from it
(UTC pendulum subtraction of whole days is exact on epoch seconds);
otherwise return the value unchanged, i.e. Python `None`. -/
def makeSinceParam (state_ts : Option Int) (lookback_days : Int) : Option Int :=
  match state_ts with
  | some t => some (t - lookback_days * 86400)
  | none => none

/-- MediaStream.get_url_params (streams.py lines 198-204).  The class sets
`replication_key = "timestamp"`; fields and since are set unconditionally
(the dict stores Python `None` under "since" when make_since_param returns
`None`). -/
def mediaGetUrlParams (access_token : String) (state_ts : Option Int)
    (lookback_days : Int) (next_page_token : Option String) :
    List (String × PVal) :=
  let params := instagramGetUrlParams access_token (some "timestamp") next_page_token
  let params := dictSet params "fields" (PVal.str (joinWith "," mediaFields))
  dictSet params "since"
    (match makeSinceParam state_ts lookback_days with
     | some t => PVal.time t
     | none => PVal.pyNone)

/-! ### JSON values, parent records and child contexts -/

/-- A JSON value as far as the record-processing code inspects one: a string,
an integer, Python `None`, or a string-keyed object. -/
inductive JVal where
  | s (v : String)
  | i (v : Int)
  | null
  | dict (kvs : List (String × JVal))
deriving Repr

/-- Whether a `JVal` is Python `None`. -/
def JVal.isNull : JVal → Bool
  | JVal.null => true
  | _ => false

/-- Association-list lookup on a JSON object / Python dict. -/
def rowFind : List (String × JVal) → String → Option JVal
  | [], _ => none
  | kv :: rest, k => if kv.1 = k then some kv.2 else rowFind rest k

/-- MediaStream.get_child_context (streams.py lines 206-213).  `record["id"]`
and `record["media_type"]` raise `KeyError` when absent (modelled as the
error case); `record.get("media_product_type")` defaults to Python `None`. -/
def mediaGetChildContext (record : List (String × JVal)) :
    Except String (List (String × JVal)) :=
  match rowFind record "id", rowFind record "media_type" with
  | some i, some mt =>
    Except.ok [("media_id", i), ("media_type", mt),
               ("media_product_type", (rowFind record "media_product_type").getD JVal.null)]
  | _, _ => Except.error "KeyError"

/-! ### MediaInsightsStream / StoryInsightsStream metric selection
(streams.py lines 464-508 and the identical copy at lines 628-672) -/

/-- The ValueError message raised for an unsupported media type. -/
def valueErrorMsg (media_type : String) : String :=
  "media_type from parent record must be one of IMAGE, VIDEO, CAROUSEL_ALBUM, got: "
    ++ media_type

/-- MediaInsightsStream._metrics_for_media_type (streams.py lines 464-498).
The parent context's media_product_type may be Python `None` (carousel
children), which is simply unequal to "STORY". -/
def metricsForMediaType (media_type : String) (media_product_type : Option String) :
    Except String (List String) :=
  if media_type = "IMAGE" ∨ media_type = "VIDEO" then
    if media_product_type = some "STORY" then
      Except.ok ["exits", "impressions", "reach", "replies", "taps_forward",
                 "taps_back"]
    else
      Except.ok (["engagement", "impressions", "reach", "saved"] ++
        (if media_type = "VIDEO" then ["video_views"] else []))
  else if media_type = "CAROUSEL_ALBUM" then
    Except.ok ["carousel_album_engagement", "carousel_album_impressions",
               "carousel_album_reach", "carousel_album_saved",
               "carousel_album_video_views"]
  else Except.error (valueErrorMsg media_type)

/-- MediaInsightsStream.get_url_params (streams.py lines 500-508).  The class
sets `replication_key = None`.  `_metrics_for_media_type` runs while the
parameters are being built, so its ValueError propagates out of
get_url_params before any request exists. -/
def mediaInsightsGetUrlParams (access_token : String) (ctx_media_type : String)
    (ctx_media_product_type : Option String) (next_page_token : Option String) :
    Except String (List (String × PVal)) :=
  let params := instagramGetUrlParams access_token none next_page_token
  match metricsForMediaType ctx_media_type ctx_media_product_type with
  | Except.error e => Except.error e
  | Except.ok ms => Except.ok (dictSet params "metric" (PVal.str (joinWith "," ms)))

/-! ### Insights responses and parse_response / validate_response -/

/-- One element of a record's "values" list.  The code reads
`values["value"]` unconditionally and `values["end_time"]` either
unconditionally (dict-valued branch) or guarded by membership. -/
structure ValueEntry where
  value : JVal
  end_time : Option String
deriving Repr

/-- One element of the response's "data" list, with the five fields the code
reads unconditionally and the optional "values" list. -/
structure InsightRecord where
  name : String
  period : String
  title : String
  id : String
  description : String
  values : Option (List ValueEntry)
deriving Repr

/-- An HTTP response as inspected by the insights streams: the status code,
`resp.json().get("error", {}).get("error_user_title")`, and the "data" list
when the body has one. -/
structure ApiResponse where
  statusCode : Nat
  errorUserTitle : Option String
  dataField : Option (List InsightRecord)
deriving Repr

/-- A normalized output row. -/
abbrev Row := List (String × JVal)

/-- Models `pendulum.parse(s).format("YYYY-MM-DD HH:mm:ss")` on the
ISO-8601 UTC timestamps the API returns (e.g. "2024-01-01T07:00:00+0000"):
the date and time portion with the `T` separator replaced by a space. -/
def reformatTs (s : String) : String :=
  ⟨(s.toList.take 19).map (fun c => if c = 'T' then ' ' else c)⟩

/-- The `base_item` dict shared by every row of one insight record
(insertion order name, period, title, id, description). -/
def baseItem (r : InsightRecord) : Row :=
  [("name", JVal.s r.name), ("period", JVal.s r.period),
   ("title", JVal.s r.title), ("id", JVal.s r.id),
   ("description", JVal.s r.description)]

/-- The rows yielded for one "values" entry (streams.py lines 845-863 and
the identical bodies at 536-556 / 700-719).  A dict-valued "value" fans out
one row per key, in dict order, reading `values["end_time"]` without a
membership check (KeyError when absent); a scalar "value" yields the entry
itself updated with the base item, reformatting "end_time" only when
present. -/
def entryRows (base : Row) (e : ValueEntry) : Except String (List Row) :=
  match e.value with
  | JVal.dict kvs =>
    match e.end_time with
    | none => Except.error "KeyError: end_time"
    | some et =>
      Except.ok (kvs.map (fun kv =>
        [("context", JVal.s kv.1), ("value", kv.2),
         ("end_time", JVal.s (reformatTs et))] ++ base))
  | v =>
    Except.ok [([("value", v)] ++
      (match e.end_time with
       | some et => [("end_time", JVal.s (reformatTs et))]
       | none => [])) ++ base]

/-- All rows of one record's "values" list, in order; the first error wins,
as for a Python generator. -/
def entriesRows (base : Row) : List ValueEntry → Except String (List Row)
  | [] => Except.ok []
  | e :: rest =>
    match entryRows base e with
    | Except.error msg => Except.error msg
    | Except.ok a =>
      match entriesRows base rest with
      | Except.error msg => Except.error msg
      | Except.ok b => Except.ok (a ++ b)

/-- The rows yielded for one record of the "data" list: nothing at all when
the record has no "values" key (`if "values" in row:` guards the whole
loop). -/
def recordRows (r : InsightRecord) : Except String (List Row) :=
  match r.values with
  | none => Except.ok []
  | some entries => entriesRows (baseItem r) entries

/-- All rows of a "data" list, concatenated in order. -/
def recordsRows : List InsightRecord → Except String (List Row)
  | [] => Except.ok []
  | r :: rest =>
    match recordRows r with
    | Except.error msg => Except.error msg
    | Except.ok a =>
      match recordsRows rest with
      | Except.error msg => Except.error msg
      | Except.ok b => Except.ok (a ++ b)

/-- UserInsightsStream.parse_response (streams.py lines 834-863):
`resp_json["data"]` raises KeyError when absent, then each record is
normalized. -/
def userInsightsParseResponse (resp : ApiResponse) : Except String (List Row) :=
  match resp.dataField with
  | none => Except.error "KeyError: data"
  | some rows => recordsRows rows

/-- The recognized soft-skip error title. -/
def softSkipTitle : String := "Media posted before business account conversion"

/-- MediaInsightsStream.parse_response (streams.py lines 519-556): the
soft-skip check runs before `resp_json["data"]` is ever touched. -/
def mediaInsightsParseResponse (resp : ApiResponse) : Except String (List Row) :=
  if resp.errorUserTitle = some softSkipTitle then Except.ok []
  else
    match resp.dataField with
    | none => Except.error "KeyError: data"
    | some rows => recordsRows rows

/-- StoryInsightsStream.parse_response (streams.py lines 683-719), an
identical copy of the MediaInsightsStream body. -/
def storyInsightsParseResponse (resp : ApiResponse) : Except String (List Row) :=
  if resp.errorUserTitle = some softSkipTitle then Except.ok []
  else
    match resp.dataField with
    | none => Except.error "KeyError: data"
    | some rows => recordsRows rows

/-- Models the singer-sdk RESTStream.validate_response collaborator
(external library; spec sections 6-7): an HTTP 4xx/5xx status raises a
fatal or retriable error, any other response is accepted. -/
def restValidateResponse (resp : ApiResponse) : Except String Unit :=
  if 400 ≤ resp.statusCode then Except.error "FatalAPIError" else Except.ok ()

/-- MediaInsightsStream.validate_response (streams.py lines 510-517): on the
soft-skip error title it logs a warning and returns without calling the base
class validation. -/
def mediaInsightsValidateResponse (resp : ApiResponse) : Except String Unit :=
  if resp.errorUserTitle = some softSkipTitle then Except.ok ()
  else restValidateResponse resp

/-- StoryInsightsStream.validate_response (streams.py lines 674-681), an
identical copy of the MediaInsightsStream body. -/
def storyInsightsValidateResponse (resp : ApiResponse) : Except String Unit :=
  if resp.errorUserTitle = some softSkipTitle then Except.ok ()
  else restValidateResponse resp

/-! ## Theorems -/

theorem recordsRows_drop_ok_nil {r : InsightRecord} (hr : recordRows r = Except.ok [])
    (pre post : List InsightRecord) :
    recordsRows (pre ++ r :: post) = recordsRows (pre ++ post) := by
  induction pre with
  | nil =>
    show recordsRows (r :: post) = recordsRows post
    simp only [recordsRows, hr]
    cases h : recordsRows post <;> simp
  | cons p ps ih =>
    show recordsRows (p :: (ps ++ r :: post)) = recordsRows (p :: (ps ++ post))
    simp only [recordsRows, ih]

/-- C1: with a stored cursor of 2024-01-01T00:00:00Z (epoch 1704067200),
minHistoricalBound 2022-01-01 (1640995200), maxAvailableBound 2024-06-01
(1717200000), maxWindowWidth 30 days and a signpost at or after 2024-01-31
(1706659200), _fetch_time_based_pagination_range returns since = 2024-01-01
and until = 2024-01-31, i.e. since plus the full 30-day window. -/
theorem c1_fetch_range_full_window (sp : Int) (hsp : 1706659200 ≤ sp) :
    fetchTimeBasedPaginationRange (some 1704067200) (some sp)
      1640995200 1717200000 (durationDays 30) = (1704067200, 1706659200) := by
  simp only [fetchTimeBasedPaginationRange, durationDays, Duration.seconds,
    Prod.mk.injEq]
  omega

theorem c1_fetch_range_full_window_witness :
    fetchTimeBasedPaginationRange (some 1704067200) (some 1706659200)
      1640995200 1717200000 (durationDays 30) = (1704067200, 1706659200) :=
  c1_fetch_range_full_window 1706659200 (by decide)

/-- C5: when the stored cursor is absent (get_starting_timestamp returned
None, so the clamp raises TypeError), the planner falls back to
since = minHistoricalBound and until = since + maxWindowWidth capped at
maxAvailableBound; whenever that cap is not binding, until is strictly below
maxAvailableBound, so the fallback never silently requests the entire
history up to maxAvailableBound. -/
theorem c5_missing_cursor_fallback (signpost : Option Int)
    (min_since max_until : Int) (w : Duration) :
    fetchTimeBasedPaginationRange none signpost min_since max_until w =
      (min_since, min (min_since + w.seconds) max_until) ∧
    (min_since + w.seconds < max_until →
      (fetchTimeBasedPaginationRange none signpost min_since max_until w).2 ≠
        max_until) := by
  have h : fetchTimeBasedPaginationRange none signpost min_since max_until w =
      (min_since, min (min_since + w.seconds) max_until) := by
    cases signpost <;> rfl
  refine ⟨h, fun hlt => ?_⟩
  rw [h]
  show min (min_since + w.seconds) max_until ≠ max_until
  omega

theorem c5_missing_cursor_fallback_witness :
    fetchTimeBasedPaginationRange none (some 0) 0 100 ⟨30⟩ = (0, min (0 + 30) 100) ∧
    (fetchTimeBasedPaginationRange none (some 0) 0 100 ⟨30⟩).2 ≠ 100 :=
  ⟨(c5_missing_cursor_fallback (some 0) 0 100 ⟨30⟩).1,
   (c5_missing_cursor_fallback (some 0) 0 100 ⟨30⟩).2 (by decide)⟩

/-- C6 counterexample: the claim quantifies over every combination of
cursor, signpost and bounds, but a signpost earlier than the clamped cursor
(cursor 50, signpost 10, bounds [0, 100], window 2592000 s) makes the
returned pair violate since <= until: the code returns (50, 10) with no
empty-window clamp. -/
theorem c6_window_invariants_counterexample :
    ¬ (0 ≤ (fetchTimeBasedPaginationRange (some 50) (some 10) 0 100 ⟨2592000⟩).1 ∧
       (fetchTimeBasedPaginationRange (some 50) (some 10) 0 100 ⟨2592000⟩).2 ≤ 100 ∧
       (fetchTimeBasedPaginationRange (some 50) (some 10) 0 100 ⟨2592000⟩).2 -
         (fetchTimeBasedPaginationRange (some 50) (some 10) 0 100 ⟨2592000⟩).1 ≤
           2592000 ∧
       (fetchTimeBasedPaginationRange (some 50) (some 10) 0 100 ⟨2592000⟩).1 ≤
         (fetchTimeBasedPaginationRange (some 50) (some 10) 0 100 ⟨2592000⟩).2) := by
  decide

/-- C6 (amended): whenever minHistoricalBound <= maxAvailableBound, the
window width is nonnegative, and the signpost (when one exists) is at or
after maxAvailableBound -- which holds in every run, where the signpost is
the extraction start and maxAvailableBound is the day before -- the
returned pair satisfies since >= minHistoricalBound,
until <= maxAvailableBound, until - since <= maxWindowWidth and
since <= until. -/
theorem c6_window_invariants (cursor signpost : Option Int)
    (min_since max_until : Int) (w : Duration)
    (h1 : min_since ≤ max_until) (h2 : 0 ≤ w.totalSeconds)
    (h3 : ∀ sp, signpost = some sp → max_until ≤ sp) :
    min_since ≤ (fetchTimeBasedPaginationRange cursor signpost min_since max_until w).1 ∧
    (fetchTimeBasedPaginationRange cursor signpost min_since max_until w).2 ≤ max_until ∧
    (fetchTimeBasedPaginationRange cursor signpost min_since max_until w).2 -
      (fetchTimeBasedPaginationRange cursor signpost min_since max_until w).1 ≤
        w.totalSeconds ∧
    (fetchTimeBasedPaginationRange cursor signpost min_since max_until w).1 ≤
      (fetchTimeBasedPaginationRange cursor signpost min_since max_until w).2 := by
  cases cursor with
  | none =>
    cases signpost <;>
      · simp only [fetchTimeBasedPaginationRange, Duration.seconds]
        omega
  | some c =>
    cases signpost with
    | none =>
      simp only [fetchTimeBasedPaginationRange, Duration.seconds]
      omega
    | some sp =>
      have hsp : max_until ≤ sp := h3 sp rfl
      simp only [fetchTimeBasedPaginationRange, Duration.seconds]
      omega

theorem c6_window_invariants_witness :
    0 ≤ (fetchTimeBasedPaginationRange (some 50) (some 200) 0 100 ⟨2592000⟩).1 ∧
    (fetchTimeBasedPaginationRange (some 50) (some 200) 0 100 ⟨2592000⟩).2 ≤ 100 ∧
    (fetchTimeBasedPaginationRange (some 50) (some 200) 0 100 ⟨2592000⟩).2 -
      (fetchTimeBasedPaginationRange (some 50) (some 200) 0 100 ⟨2592000⟩).1 ≤
        (⟨2592000⟩ : Duration).totalSeconds ∧
    (fetchTimeBasedPaginationRange (some 50) (some 200) 0 100 ⟨2592000⟩).1 ≤
      (fetchTimeBasedPaginationRange (some 50) (some 200) 0 100 ⟨2592000⟩).2 :=
  c6_window_invariants (some 50) (some 200) 0 100 ⟨2592000⟩ (by decide) (by decide)
    (by intro sp hsp; injection hsp with h; omega)

/-- C2 counterexample: the empty string is a non-None next_page_token, but
`if next_page_token:` tests Python truthiness, so the base parameters
(access_token) are returned instead of the (empty) parse of the token's
query string. -/
theorem c2_token_replacement_counterexample :
    instagramGetUrlParams "T" none (some "") ≠ tokenParams "" := by
  decide

/-- C2 (amended): for every non-None and non-empty next_page_token, both the
base InstagramStream.get_url_params and the UserInsightsStream override
return exactly the parameters parsed from the token URL's query string and
nothing else; none of the base parameters survive. -/
theorem c2_token_replaces_base_params (tok : String) (htok : tok ≠ "")
    (access_token : String) (replication_key : Option String)
    (metrics : List String) (time_period : String) (has_pagination : Bool)
    (cursor signpost : Option Int) (min_start_date max_end_date : Int)
    (max_time_window : Duration) :
    instagramGetUrlParams access_token replication_key (some tok) =
      tokenParams tok ∧
    userInsightsGetUrlParams access_token metrics time_period has_pagination
      cursor signpost min_start_date max_end_date max_time_window (some tok) =
      tokenParams tok := by
  have h : pyTruthy (some tok) = true := by
    simp [pyTruthy, htok]
  constructor
  · simp [instagramGetUrlParams, h]
  · simp [userInsightsGetUrlParams, instagramGetUrlParams, h]

theorem c2_token_replaces_base_params_witness :
    instagramGetUrlParams "T" (some "end_time")
      (some "https://graph.facebook.com/v12/1/insights?a=1&b=2") =
      tokenParams "https://graph.facebook.com/v12/1/insights?a=1&b=2" ∧
    userInsightsGetUrlParams "T" ["impressions"] "day" true (some 0) (some 0)
      0 0 ⟨0⟩ (some "https://graph.facebook.com/v12/1/insights?a=1&b=2") =
      tokenParams "https://graph.facebook.com/v12/1/insights?a=1&b=2" :=
  c2_token_replaces_base_params
    "https://graph.facebook.com/v12/1/insights?a=1&b=2" (by decide)
    "T" (some "end_time") ["impressions"] "day" true (some 0) (some 0) 0 0 ⟨0⟩

/-- C7: _metrics_for_media_type returns the six story metrics for
IMAGE/VIDEO with product type STORY, engagement/impressions/reach/saved
(plus video_views exactly for VIDEO) for other product types, the five
carousel_album metrics for CAROUSEL_ALBUM, and for any other media_type it
raises ValueError; the error propagates out of
MediaInsightsStream.get_url_params while the parameters are being built,
before any request is issued. -/
theorem c7_metrics_for_media_type (mt : String) (mpt : Option String)
    (access_token : String) (tok : Option String) :
    (mt = "IMAGE" ∨ mt = "VIDEO" → mpt = some "STORY" →
      metricsForMediaType mt mpt =
        Except.ok ["exits", "impressions", "reach", "replies", "taps_forward",
                   "taps_back"]) ∧
    (mt = "IMAGE" → mpt ≠ some "STORY" →
      metricsForMediaType mt mpt =
        Except.ok ["engagement", "impressions", "reach", "saved"]) ∧
    (mt = "VIDEO" → mpt ≠ some "STORY" →
      metricsForMediaType mt mpt =
        Except.ok ["engagement", "impressions", "reach", "saved",
                   "video_views"]) ∧
    (mt = "CAROUSEL_ALBUM" →
      metricsForMediaType mt mpt =
        Except.ok ["carousel_album_engagement", "carousel_album_impressions",
                   "carousel_album_reach", "carousel_album_saved",
                   "carousel_album_video_views"]) ∧
    (mt ≠ "IMAGE" → mt ≠ "VIDEO" → mt ≠ "CAROUSEL_ALBUM" →
      metricsForMediaType mt mpt = Except.error (valueErrorMsg mt) ∧
      mediaInsightsGetUrlParams access_token mt mpt tok =
        Except.error (valueErrorMsg mt)) := by
  refine ⟨?_, ?_, ?_, ?_, ?_⟩
  · rintro (rfl | rfl) hst <;> simp [metricsForMediaType, hst]
  · rintro rfl hst
    simp [metricsForMediaType, hst]
  · rintro rfl hst
    simp [metricsForMediaType, hst]
  · rintro rfl
    simp [metricsForMediaType]
  · intro h1 h2 h3
    have hm : metricsForMediaType mt mpt = Except.error (valueErrorMsg mt) := by
      simp [metricsForMediaType, h1, h2, h3]
    exact ⟨hm, by simp [mediaInsightsGetUrlParams, hm]⟩

theorem c7_metrics_for_media_type_witness :
    metricsForMediaType "AUDIO" (some "FEED") =
      Except.error (valueErrorMsg "AUDIO") ∧
    mediaInsightsGetUrlParams "T" "AUDIO" (some "FEED") none =
      Except.error (valueErrorMsg "AUDIO") :=
  (c7_metrics_for_media_type "AUDIO" (some "FEED") "T" none).2.2.2.2
    (by decide) (by decide) (by decide)

/-- C10: MediaStream.make_since_param subtracts media_insights_lookback_days
days from a stored starting timestamp and returns None (not any default
historical bound) when no starting timestamp exists, in which case
get_url_params stores Python None under "since". -/
theorem c10_make_since_param (t lookback : Int) (access_token : String) :
    makeSinceParam (some t) lookback = some (t - lookback * 86400) ∧
    makeSinceParam none lookback = none ∧
    dictFind (mediaGetUrlParams access_token none lookback none) "since" =
      some PVal.pyNone := by
  exact ⟨rfl, rfl, rfl⟩

/-- C3: a "values" entry whose "value" is a keyed mapping fans out into
exactly one row per key, each row carrying context = the key, value = the
corresponding scalar, the reformatted end_time, and identical copies of the
shared name/period/title/id/description fields; in particular the two-key
example {male: 10, female: 20} yields exactly 2 rows differing only in
context and value. -/
theorem c3_dict_value_fanout (name period title id description et : String)
    (kvs : List (String × JVal)) (sc : Nat) (eut : Option String) :
    userInsightsParseResponse ⟨sc, eut,
        some [⟨name, period, title, id, description,
               some [⟨JVal.dict kvs, some et⟩]⟩]⟩ =
      Except.ok (kvs.map (fun kv =>
        [("context", JVal.s kv.1), ("value", kv.2),
         ("end_time", JVal.s (reformatTs et))] ++
        baseItem ⟨name, period, title, id, description,
                  some [⟨JVal.dict kvs, some et⟩]⟩)) ∧
    userInsightsParseResponse ⟨200, none,
        some [⟨"audience_gender", "lifetime", "Gender", "17841400/insights",
               "Audience by gender",
               some [⟨JVal.dict [("male", JVal.i 10), ("female", JVal.i 20)],
                      some "2024-01-01T07:00:00+0000"⟩]⟩]⟩ =
      Except.ok
        [[("context", JVal.s "male"), ("value", JVal.i 10),
          ("end_time", JVal.s "2024-01-01 07:00:00"),
          ("name", JVal.s "audience_gender"), ("period", JVal.s "lifetime"),
          ("title", JVal.s "Gender"), ("id", JVal.s "17841400/insights"),
          ("description", JVal.s "Audience by gender")],
         [("context", JVal.s "female"), ("value", JVal.i 20),
          ("end_time", JVal.s "2024-01-01 07:00:00"),
          ("name", JVal.s "audience_gender"), ("period", JVal.s "lifetime"),
          ("title", JVal.s "Gender"), ("id", JVal.s "17841400/insights"),
          ("description", JVal.s "Audience by gender")]] := by
  constructor
  · simp [userInsightsParseResponse, recordsRows, recordRows, entriesRows,
      entryRows]
  · rfl

/-- C4: every response whose body carries error_user_title "Media posted
before business account conversion" is soft-skipped by MediaInsightsStream
and StoryInsightsStream: validate_response returns without raising (even for
an HTTP error status) and parse_response yields zero rows without ever
touching the "data" key. -/
theorem c4_soft_skip (resp : ApiResponse)
    (h : resp.errorUserTitle = some softSkipTitle) :
    mediaInsightsValidateResponse resp = Except.ok () ∧
    mediaInsightsParseResponse resp = Except.ok [] ∧
    storyInsightsValidateResponse resp = Except.ok () ∧
    storyInsightsParseResponse resp = Except.ok [] := by
  refine ⟨?_, ?_, ?_, ?_⟩ <;>
    simp [mediaInsightsValidateResponse, mediaInsightsParseResponse,
      storyInsightsValidateResponse, storyInsightsParseResponse, h]

theorem c4_soft_skip_witness :
    mediaInsightsValidateResponse ⟨400, some softSkipTitle, none⟩ =
      Except.ok () ∧
    mediaInsightsParseResponse ⟨400, some softSkipTitle, none⟩ =
      Except.ok [] ∧
    storyInsightsValidateResponse ⟨400, some softSkipTitle, none⟩ =
      Except.ok () ∧
    storyInsightsParseResponse ⟨400, some softSkipTitle, none⟩ =
      Except.ok [] :=
  c4_soft_skip ⟨400, some softSkipTitle, none⟩ rfl

/-- C8: the parent row with id "123" and media_type "VIDEO" produces a child
context carrying media_id = "123" and media_type = "VIDEO"; its only other
key, media_product_type, holds Python None here, so no key other than those
two carries parent-row data. -/
theorem c8_child_context :
    mediaGetChildContext [("id", JVal.s "123"), ("media_type", JVal.s "VIDEO")] =
      Except.ok [("media_id", JVal.s "123"), ("media_type", JVal.s "VIDEO"),
                 ("media_product_type", JVal.null)] ∧
    ([("media_id", JVal.s "123"), ("media_type", JVal.s "VIDEO"),
      ("media_product_type", JVal.null)].filter
        (fun kv => !(kv.2.isNull))).map Prod.fst = ["media_id", "media_type"] := by
  exact ⟨rfl, rfl⟩

/-- C9: an insights record that lacks the "values" key contributes zero rows
and is silently dropped -- deleting it from the "data" list leaves the
output of parse_response unchanged, for UserInsightsStream and
MediaInsightsStream alike. -/
theorem c9_missing_values_dropped (r : InsightRecord) (hr : r.values = none)
    (pre post : List InsightRecord) (sc : Nat) (eut : Option String) :
    recordRows r = Except.ok [] ∧
    userInsightsParseResponse ⟨sc, eut, some (pre ++ r :: post)⟩ =
      userInsightsParseResponse ⟨sc, eut, some (pre ++ post)⟩ ∧
    mediaInsightsParseResponse ⟨sc, eut, some (pre ++ r :: post)⟩ =
      mediaInsightsParseResponse ⟨sc, eut, some (pre ++ post)⟩ := by
  have h0 : recordRows r = Except.ok [] := by
    simp [recordRows, hr]
  have hd := recordsRows_drop_ok_nil h0 pre post
  refine ⟨h0, ?_, ?_⟩
  · simp [userInsightsParseResponse, hd]
  · by_cases he : eut = some softSkipTitle <;>
      simp [mediaInsightsParseResponse, he, hd]

theorem c9_missing_values_dropped_witness :
    recordRows ⟨"n", "p", "t", "i", "d", none⟩ = Except.ok [] ∧
    userInsightsParseResponse ⟨200, none, some [⟨"n", "p", "t", "i", "d", none⟩]⟩ =
      userInsightsParseResponse ⟨200, none, some []⟩ ∧
    mediaInsightsParseResponse ⟨200, none, some [⟨"n", "p", "t", "i", "d", none⟩]⟩ =
      mediaInsightsParseResponse ⟨200, none, some []⟩ :=
  c9_missing_values_dropped ⟨"n", "p", "t", "i", "d", none⟩ rfl [] [] 200 none
